import Mathlib

/-!
Verification of the bright-ants-backend content-management API against its
natural-language specification.

The development shallowly embeds the TypeScript source:

* `src/routes/files.ts` — upload processing (`processLoop`), filename
  generation (`generateSanitizedFilename`), and file serving (`serveFile`)
  with the directory-traversal guard;
* `src/routes/carouselImages.ts`, `src/routes/promotionalOffers.ts`,
  `src/routes/testimonials.ts`, and the offers routes — entity create /
  update / delete handlers over an explicit in-memory model of the
  database tables and of the blob-store directory;
* `src/routes/email.ts` — the contact-form handler;
* `src/types.ts` — the zod validation schemas that gate the handlers.

Machine integers do not overflow in any modeled path, so sizes and ids are
`Nat`; JS numbers produced by `z.coerce.number()` on decimal route
parameters are modeled exactly as rationals.  Filesystem state (the blob
directory) is passed explicitly; every handler returns its result together
with the post-state, and `serveFile` additionally returns the list of
paths it read.
-/

-- ===========================================================================
-- Strings: character-level helpers
--
-- Lean's `String.toLower` / `String.startsWith` / `String.splitOn` are not
-- kernel-reducible, so the JS string operations used by the source are
-- modeled directly on `String.data` (lists of characters).
-- ===========================================================================

/-- ASCII lower-casing of one character, as `String.prototype.toLowerCase`
behaves on the ASCII filenames and extensions this server handles. -/
def charToLower (c : Char) : Char :=
  if 'A' ≤ c ∧ c ≤ 'Z' then Char.ofNat (c.toNat + 32) else c

/-- `s.toLowerCase()` on ASCII strings. -/
def strToLower (s : String) : String :=
  ⟨s.data.map charToLower⟩

/-- `s.startsWith(p)` (JS `String.prototype.startsWith`). -/
def strStartsWith (s p : String) : Bool :=
  p.data.isPrefixOf s.data

/-- Split a character list at every occurrence of `sep` (the list analogue of
JS `String.prototype.split` with a one-character separator). -/
def splitOnChar (sep : Char) : List Char → List (List Char)
  | [] => [[]]
  | c :: rest =>
    let r := splitOnChar sep rest
    if c = sep then [] :: r
    else
      match r with
      | h :: t => (c :: h) :: t
      | [] => [[c]]

/-- Does `hay` contain `needle` as a contiguous segment?  This is JS
`String.prototype.includes` lowered to character lists. -/
def listIsInfix (needle : List Char) : List Char → Bool
  | [] => needle.isEmpty
  | c :: rest => needle.isPrefixOf (c :: rest) || listIsInfix needle rest

/-- `msg.includes(name)` on strings: whether the message `msg` mentions the
string `name`. -/
def mentions (msg name : String) : Bool :=
  listIsInfix name.data msg.data

-- ===========================================================================
-- src/routes/files.ts — filename generation
-- ===========================================================================

/-- Node's `path.extname` (posix): the extension of the final path component,
from its last dot to the end; a leading dot does not start an extension,
and the component `".."` has no extension. -/
def extname (p : String) : String :=
  let base := (splitOnChar '/' p.data).getLastD []
  if base = ['.', '.'] then ""
  else
    match base.reverse.findIdx? (· = '.') with
    | none => ""
    | some j =>
      let i := base.length - 1 - j
      if i = 0 then "" else ⟨base.drop i⟩

/-- `generateSanitizedFilename` from `src/routes/files.ts`: the stored name is
`` `${timestamp}-${randomString}${ext}` `` where `ext` is the lower-cased
extension of the client-supplied original name.  `Date.now()` and the random
suffix are explicit parameters of the embedding. -/
def generateSanitizedFilename (timestamp : Nat) (randomString : String)
    (originalName : String) : String :=
  toString timestamp ++ "-" ++ randomString ++ strToLower (extname originalName)

-- ===========================================================================
-- Blob store state
-- ===========================================================================

/-- Contents of a stored file.  `sharp(buffer).jpeg({quality}).toFile(...)`
re-encodes a source buffer to JPEG, which the model keeps symbolic as
`jpeg quality source`; videos are written byte-for-byte (`raw`). -/
inductive StoredContent where
  | jpeg (quality : Nat) (source : List Nat)
  | raw (bytes : List Nat)
deriving DecidableEq

/-- The blob-store directory (`filesDir`): an association of filenames to
stored contents. -/
def Blobs := List (String × StoredContent)
deriving DecidableEq

/-- `fs.writeFile` / `sharp(...).toFile` at `filesDir/name`: overwrite. -/
def setBlob (store : Blobs) (name : String) (c : StoredContent) : Blobs :=
  (name, c) :: (store : List (String × StoredContent)).filter (fun p => p.1 != name)

/-- `fs.access` + `fs.readFile` at `filesDir/name`. -/
def getBlob (store : Blobs) (name : String) : Option StoredContent :=
  ((store : List (String × StoredContent)).find? (fun p => p.1 == name)).map (·.2)

-- ===========================================================================
-- src/routes/files.ts — POST / (upload)
-- ===========================================================================

/-- One `File` entry extracted from the multipart form data. -/
structure UploadFile where
  name : String
  type : String
  size : Nat
  content : List Nat
deriving DecidableEq

/-- One entry of the `processedFiles` array returned by the upload handler
(the reported byte size, read back from `fs.stat`, is not modeled: no claim
depends on it). -/
structure ProcessedFile where
  name : String
  type : String
deriving DecidableEq

/-- HTTP outcome of the upload route: `created` is the 201 response with the
processed-files list, `clientError` the 400 response. -/
inductive UploadOutcome where
  | created (processed : List ProcessedFile)
  | clientError (msg : String)
deriving DecidableEq

/-- The `for (const file of files)` loop of the upload handler.  `seed k`
supplies the `(Date.now(), Math.random(...))` pair consumed by the `k`-th
image.  Returns the HTTP outcome together with the final blob store; note
that an error return keeps every write performed by earlier iterations. -/
def processLoop (seed : Nat → Nat × String) :
    List UploadFile → Nat → Blobs → UploadOutcome × Blobs
  | [], _, store => (.created [], store)
  | f :: rest, k, store =>
    let isImg := strStartsWith f.type "image/"
    let isVid := strStartsWith f.type "video/"
    if !(isImg || isVid) then
      (.clientError ("Invalid file type for " ++ f.name ++
        ". Only image and video files are allowed."), store)
    else
      let maxSize : Nat := if isImg then 50 * 1024 * 1024 else 1024 * 1024 * 1024
      let maxSizeStr : String := if isImg then "50MB" else "1GB"
      if maxSize < f.size then
        (.clientError ("File " ++ f.name ++ " exceeds the " ++ maxSizeStr ++
          " limit."), store)
      else if isImg then
        let ts := (seed k).1
        let rand := (seed k).2
        let fname := generateSanitizedFilename ts rand f.name
        let store' := setBlob store fname (.jpeg 80 f.content)
        match processLoop seed rest (k + 1) store' with
        | (.created ps, st) => (.created (⟨fname, "image/jpeg"⟩ :: ps), st)
        | other => other
      else
        let store' := setBlob store "video.mp4" (.raw f.content)
        match processLoop seed rest k store' with
        | (.created ps, st) => (.created (⟨"video.mp4", "video/mp4"⟩ :: ps), st)
        | other => other

-- ===========================================================================
-- src/routes/files.ts — GET /:filename (serve)
-- ===========================================================================

/-- Result of the serve route: 200 with a Content-Type header and the file
body, 400, or 404. -/
inductive ServeResult where
  | ok (contentType : String) (body : StoredContent)
  | badRequest (msg : String)
  | notFound (msg : String)
deriving DecidableEq

/-- The extension-to-Content-Type table of the serve handler. -/
def contentTypeOfExt (ext : String) : String :=
  if ext = ".jpg" ∨ ext = ".jpeg" then "image/jpeg"
  else if ext = ".png" then "image/png"
  else if ext = ".gif" then "image/gif"
  else if ext = ".webp" then "image/webp"
  else if ext = ".svg" then "image/svg+xml"
  else if ext = ".mp4" then "video/mp4"
  else if ext = ".webm" then "video/webm"
  else if ext = ".ogg" then "video/ogg"
  else if ext = ".avi" then "video/x-msvideo"
  else if ext = ".mov" then "video/quicktime"
  else if ext = ".wmv" then "video/x-ms-wmv"
  else if ext = ".flv" then "video/x-flv"
  else if ext = ".mkv" then "video/x-matroska"
  else "application/octet-stream"

/-- `Content-Type` chosen for a served filename:
`path.extname(filename).toLowerCase()` looked up in the fixed table. -/
def contentTypeFor (filename : String) : String :=
  contentTypeOfExt (strToLower (extname filename))

/-- The directory-traversal guard of the serve handler:
`filename.includes("..") || filename.includes("/") || filename.includes("\\")`. -/
def hasTraversal (filename : String) : Bool :=
  listIsInfix ['.', '.'] filename.data ||
    filename.data.contains '/' || filename.data.contains '\\'

/-- `GET /files/:filename`.  Returns the HTTP result paired with the list of
blob-store paths the handler read (`fs.access`/`fs.readFile`): the fixed
video name is handled first, then the traversal guard, then the generic
extension-typed read. -/
def serveFile (filename : String) (store : Blobs) : ServeResult × List String :=
  if filename = "video.mp4" then
    match getBlob store "video.mp4" with
    | some c => (.ok "video/mp4" c, ["video.mp4"])
    | none => (.notFound "Video file not found", ["video.mp4"])
  else if hasTraversal filename then
    (.badRequest "Invalid filename", [])
  else
    match getBlob store filename with
    | some c => (.ok (contentTypeFor filename) c, [filename])
    | none => (.notFound "File not found", [filename])

-- ===========================================================================
-- C4 and C10
-- ===========================================================================

/-- C4: every requested filename containing a parent-directory segment `".."`
or a path separator `"/"` or `"\"` makes Serve return the 400 client error
and perform no filesystem read; the `"video.mp4"` bypass is vacuous there
because the fixed video name contains no such token. -/
theorem c4_traversal_guard (filename : String) (store : Blobs)
    (h : hasTraversal filename = true) :
    serveFile filename store = (.badRequest "Invalid filename", []) := by
  have hne : filename ≠ "video.mp4" := by
    intro he
    rw [he] at h
    exact absurd h (by decide)
  unfold serveFile
  rw [if_neg hne, if_pos h]

/-- C4 witness: `"../secret"` (the decoding of `/files/..%2fsecret`) trips the
guard and is rejected with no read. -/
theorem c4_traversal_guard_witness :
    hasTraversal "../secret" = true ∧
      serveFile "../secret" [] = (.badRequest "Invalid filename", []) :=
  ⟨by decide, c4_traversal_guard "../secret" [] (by decide)⟩

/-- C10: an upload request with zero file entries is not rejected: the loop
body never runs, the 201 success response carries an empty processed-files
list, and the blob store is untouched. -/
theorem c10_empty_upload (seed : Nat → Nat × String) (k : Nat) (store : Blobs) :
    processLoop seed [] k store = (.created [], store) :=
  rfl

-- ===========================================================================
-- C1 — image upload re-encoding and serving
-- ===========================================================================

/-- Reading back a freshly written blob returns exactly what was written. -/
theorem getBlob_setBlob (store : Blobs) (n : String) (c : StoredContent) :
    getBlob (setBlob store n c) n = some c := by
  simp [getBlob, setBlob, List.find?]

/-- The generated filename always contains the `'-'` between timestamp and
random suffix, so it is never the fixed video name. -/
theorem generatedName_ne_video (ts : Nat) (rand originalName : String) :
    generateSanitizedFilename ts rand originalName ≠ "video.mp4" := by
  intro he
  have hm : '-' ∈ (generateSanitizedFilename ts rand originalName).data := by
    have hd : (generateSanitizedFilename ts rand originalName).data
        = (toString ts).data ++ ['-'] ++
          (rand.data ++ (strToLower (extname originalName)).data) := by
      simp [generateSanitizedFilename]
    rw [hd]
    simp
  rw [he] at hm
  exact absurd hm (by decide)

/-- C1 (amended): an uploaded entry whose declared media type starts with
`image/` is re-encoded to JPEG at quality 80 and stored under the generated
`timestamp-random.ext` name; the name differs from the original whenever the
original does not itself start with the same `timestamp-` prefix; serving
the stored name succeeds — but with the Content-Type derived from the
preserved original extension, so a name ending in `.png` is served as
`image/png`, not `image/jpeg`. -/
theorem c1_image_upload_reencode_and_serve
    (ts : Nat) (rand : String) (f : UploadFile) (seed : Nat → Nat × String)
    (k : Nat) (store : Blobs)
    (himg : strStartsWith f.type "image/" = true)
    (hsize : f.size ≤ 50 * 1024 * 1024)
    (hseed : seed k = (ts, rand))
    (hclean : hasTraversal (generateSanitizedFilename ts rand f.name) = false)
    (hfresh : (toString ts ++ "-").data.isPrefixOf f.name.data = false) :
    processLoop seed [f] k store =
      (.created [⟨generateSanitizedFilename ts rand f.name, "image/jpeg"⟩],
        setBlob store (generateSanitizedFilename ts rand f.name)
          (.jpeg 80 f.content)) ∧
    generateSanitizedFilename ts rand f.name ≠ f.name ∧
    (serveFile (generateSanitizedFilename ts rand f.name)
        (setBlob store (generateSanitizedFilename ts rand f.name)
          (.jpeg 80 f.content))).1 =
      .ok (contentTypeFor (generateSanitizedFilename ts rand f.name))
        (.jpeg 80 f.content) ∧
    (strToLower (extname (generateSanitizedFilename ts rand f.name)) = ".png" →
      contentTypeFor (generateSanitizedFilename ts rand f.name) = "image/png") := by
  have hns : ¬ (50 * 1024 * 1024 < f.size) := Nat.not_lt.mpr hsize
  refine ⟨?_, ?_, ?_, ?_⟩
  · simp [processLoop, hseed, himg, hns]
  · intro he
    have hp : (toString ts ++ "-").data.isPrefixOf f.name.data = true := by
      rw [ List.isPrefixOf_iff_prefix]
      refine ⟨rand.data ++ (strToLower (extname f.name)).data, ?_⟩
      conv_rhs => rw [← he]
      simp [generateSanitizedFilename]
    rw [hfresh] at hp
    exact Bool.noConfusion hp
  · unfold serveFile
    rw [if_neg (generatedName_ne_video ts rand f.name), if_neg (by rw [hclean]; decide),
      getBlob_setBlob]
  · intro h
    unfold contentTypeFor
    rw [h]
    decide

/-- C1 counterexample: uploading a file declared `image/png` (original name
`photo.png`) stores JPEG-encoded content under `1000-abcd1234.png`, but a
subsequent Serve of that stored name returns Content-Type `image/png`
(derived from the preserved extension), not `image/jpeg` as claimed. -/
theorem c1_counterexample :
    processLoop (fun _ => (1000, "abcd1234"))
        [⟨"photo.png", "image/png", 10, [7, 7]⟩] 0 [] =
      (.created [⟨"1000-abcd1234.png", "image/jpeg"⟩],
        [("1000-abcd1234.png", StoredContent.jpeg 80 [7, 7])]) ∧
    (serveFile "1000-abcd1234.png"
        [("1000-abcd1234.png", StoredContent.jpeg 80 [7, 7])]).1 =
      ServeResult.ok "image/png" (StoredContent.jpeg 80 [7, 7]) ∧
    "image/png" ≠ "image/jpeg" :=
  ⟨by decide, by decide, by decide⟩

/-- C1 witness: the amended theorem applied to the `photo.png` upload. -/
theorem c1_image_upload_reencode_and_serve_witness :
    processLoop (fun _ => (1000, "abcd1234"))
        [⟨"photo.png", "image/png", 10, [7, 7]⟩] 0 [] =
      (.created [⟨generateSanitizedFilename 1000 "abcd1234" "photo.png",
          "image/jpeg"⟩],
        setBlob [] (generateSanitizedFilename 1000 "abcd1234" "photo.png")
          (.jpeg 80 [7, 7])) ∧
    generateSanitizedFilename 1000 "abcd1234" "photo.png" ≠ "photo.png" ∧
    (serveFile (generateSanitizedFilename 1000 "abcd1234" "photo.png")
        (setBlob [] (generateSanitizedFilename 1000 "abcd1234" "photo.png")
          (.jpeg 80 [7, 7]))).1 =
      .ok (contentTypeFor (generateSanitizedFilename 1000 "abcd1234" "photo.png"))
        (.jpeg 80 [7, 7]) ∧
    (strToLower (extname (generateSanitizedFilename 1000 "abcd1234" "photo.png"))
        = ".png" →
      contentTypeFor (generateSanitizedFilename 1000 "abcd1234" "photo.png")
        = "image/png") :=
  c1_image_upload_reencode_and_serve 1000 "abcd1234"
    ⟨"photo.png", "image/png", 10, [7, 7]⟩ (fun _ => (1000, "abcd1234")) 0 []
    (by decide) (by decide) rfl (by decide) (by decide)

-- ===========================================================================
-- C3 — per-entry validation interleaved with processing
-- ===========================================================================

/-- The media-type check of one loop iteration. -/
def entryTypeOk (f : UploadFile) : Bool :=
  strStartsWith f.type "image/" || strStartsWith f.type "video/"

/-- The size ceiling the loop applies to one entry: 50 MiB for images,
1 GiB otherwise (videos). -/
def entryMaxSize (f : UploadFile) : Nat :=
  if strStartsWith f.type "image/" then 50 * 1024 * 1024 else 1024 * 1024 * 1024

/-- Whether one entry passes both per-entry checks of the upload loop. -/
def entryValid (f : UploadFile) : Bool :=
  entryTypeOk f && decide (f.size ≤ entryMaxSize f)

/-- The 400 message produced for the first failing entry. -/
def entryErrorMsg (f : UploadFile) : String :=
  if !(entryTypeOk f) then
    "Invalid file type for " ++ f.name ++ ". Only image and video files are allowed."
  else
    "File " ++ f.name ++ " exceeds the " ++
      (if strStartsWith f.type "image/" then "50MB" else "1GB") ++ " limit."

/-- The seed counter after one successfully processed entry (only images
consume a `(Date.now(), Math.random())` pair). -/
def stepK (k : Nat) (f : UploadFile) : Nat :=
  if strStartsWith f.type "image/" then k + 1 else k

/-- The blob store after one successfully processed entry: images are written
JPEG-encoded under the generated name, videos overwrite `video.mp4`. -/
def stepStore (seed : Nat → Nat × String) (k : Nat) (f : UploadFile)
    (store : Blobs) : Blobs :=
  if strStartsWith f.type "image/" then
    setBlob store (generateSanitizedFilename (seed k).1 (seed k).2 f.name)
      (.jpeg 80 f.content)
  else
    setBlob store "video.mp4" (.raw f.content)

/-- State (counter, blob store) after processing a list of valid entries. -/
def runValid (seed : Nat → Nat × String) : Nat → List UploadFile → Blobs → Nat × Blobs
  | k, [], store => (k, store)
  | k, f :: rest, store => runValid seed (stepK k f) rest (stepStore seed k f store)

/-- An invalid entry at the head of the loop aborts immediately with its
error message, leaving the store as it stands at that iteration. -/
theorem processLoop_cons_invalid (seed : Nat → Nat × String) (f : UploadFile)
    (rest : List UploadFile) (k : Nat) (store : Blobs)
    (h : entryValid f = false) :
    processLoop seed (f :: rest) k store = (.clientError (entryErrorMsg f), store) := by
  by_cases ht : entryTypeOk f = true
  · have hsz : entryMaxSize f < f.size := by
      have := h
      rw [entryValid, ht, Bool.true_and, decide_eq_false_iff_not] at this
      omega
    by_cases himg : strStartsWith f.type "image/" = true
    · rw [entryMaxSize, if_pos himg] at hsz
      simp [processLoop, entryErrorMsg, entryTypeOk, himg, ht, hsz]
    · have hvid : strStartsWith f.type "video/" = true := by
        rw [entryTypeOk] at ht
        rcases Bool.or_eq_true_iff.mp ht with hv | hv
        · exact absurd hv himg
        · exact hv
      rw [entryMaxSize, if_neg himg] at hsz
      simp [processLoop, entryErrorMsg, entryTypeOk, himg, hvid, ht, hsz]
  · rw [Bool.not_eq_true] at ht
    have ht' := ht
    rw [entryTypeOk] at ht'
    simp [processLoop, entryErrorMsg, entryTypeOk, ht, ht']

/-- A valid entry at the head of the loop is processed (written to the blob
store) and the loop continues on the tail with the advanced state; the
final store is whatever the tail produces. -/
theorem processLoop_cons_valid (seed : Nat → Nat × String) (f : UploadFile)
    (rest : List UploadFile) (k : Nat) (store : Blobs)
    (h : entryValid f = true) :
    (processLoop seed (f :: rest) k store).2 =
        (processLoop seed rest (stepK k f) (stepStore seed k f store)).2 ∧
      ∀ m st, processLoop seed rest (stepK k f) (stepStore seed k f store) =
          (.clientError m, st) →
        processLoop seed (f :: rest) k store = (.clientError m, st) := by
  rw [entryValid, Bool.and_eq_true, decide_eq_true_eq] at h
  obtain ⟨ht, hsz⟩ := h
  by_cases himg : strStartsWith f.type "image/" = true
  · rw [entryMaxSize, if_pos himg] at hsz
    have hns : ¬ (50 * 1024 * 1024 < f.size) := Nat.not_lt.mpr hsz
    refine ⟨?_, ?_⟩
    · rcases hr : processLoop seed rest (stepK k f) (stepStore seed k f store)
        with ⟨out, st⟩
      rw [stepK, if_pos himg, stepStore, if_pos himg] at hr
      cases out <;> simp [processLoop, himg, hns, hr]
    · intro m st hrest
      rw [stepK, if_pos himg, stepStore, if_pos himg] at hrest
      simp [processLoop, himg, hns, hrest]
  · have hvid : strStartsWith f.type "video/" = true := by
      rw [entryTypeOk] at ht
      rcases Bool.or_eq_true_iff.mp ht with hv | hv
      · exact absurd hv himg
      · exact hv
    rw [entryMaxSize, if_neg himg] at hsz
    have hns : ¬ (1024 * 1024 * 1024 < f.size) := Nat.not_lt.mpr hsz
    refine ⟨?_, ?_⟩
    · rcases hr : processLoop seed rest (stepK k f) (stepStore seed k f store)
        with ⟨out, st⟩
      rw [stepK, if_neg himg, stepStore, if_neg himg] at hr
      cases out <;> simp [processLoop, himg, hvid, hns, hr]
    · intro m st hrest
      rw [stepK, if_neg himg, stepStore, if_neg himg] at hrest
      simp [processLoop, himg, hvid, hns, hrest]

/-- C3 (amended): validation is per-entry and interleaved with processing.
When the first invalid entry (bad media type or over-ceiling size) is
reached, the request aborts with the 400 error naming that entry and the
remaining entries are untouched — but every entry before it has already
been validated, processed and written to the blob store, so the store on
error is exactly the state after the valid prefix. -/
theorem c3_first_invalid_entry_aborts (seed : Nat → Nat × String)
    (goods : List UploadFile) (bad : UploadFile) (rest : List UploadFile)
    (k : Nat) (store : Blobs) :
    (∀ g ∈ goods, entryValid g = true) → entryValid bad = false →
    processLoop seed (goods ++ bad :: rest) k store =
        (.clientError (entryErrorMsg bad), (runValid seed k goods store).2) ∧
      (processLoop seed goods k store).2 = (runValid seed k goods store).2 := by
  induction goods generalizing k store with
  | nil =>
    intro _ hbad
    exact ⟨processLoop_cons_invalid seed bad rest k store hbad, rfl⟩
  | cons g gs ih =>
    intro hall hbad
    have hg : entryValid g = true := hall g (List.mem_cons_self g gs)
    have hall' : ∀ x ∈ gs, entryValid x = true := fun x hx =>
      hall x (List.mem_cons_of_mem g hx)
    obtain ⟨ih1, ih2⟩ := ih (stepK k g) (stepStore seed k g store) hall' hbad
    refine ⟨?_, ?_⟩
    · exact (processLoop_cons_valid seed g (gs ++ bad :: rest) k store hg).2 _ _ ih1
    · rw [(processLoop_cons_valid seed g gs k store hg).1]
      exact ih2

/-- C3 counterexample: a request with a valid image followed by an invalid
`text/plain` entry returns the 400 error, but the image has already been
stored — shared state was mutated before the error was detected. -/
theorem c3_counterexample :
    processLoop (fun _ => (1000, "abcd1234"))
        [⟨"a.png", "image/png", 10, [7]⟩, ⟨"bad.txt", "text/plain", 5, []⟩] 0 [] =
      (.clientError
          "Invalid file type for bad.txt. Only image and video files are allowed.",
        [("1000-abcd1234.png", StoredContent.jpeg 80 [7])]) ∧
    ([("1000-abcd1234.png", StoredContent.jpeg 80 [7])] : Blobs) ≠ [] :=
  ⟨by decide, by decide⟩

/-- C3 witness: the amended theorem at the two-entry request above. -/
theorem c3_first_invalid_entry_aborts_witness :
    (∀ g ∈ [(⟨"a.png", "image/png", 10, [7]⟩ : UploadFile)], entryValid g = true) ∧
    entryValid ⟨"bad.txt", "text/plain", 5, []⟩ = false ∧
    (processLoop (fun _ => (1000, "abcd1234"))
        ([⟨"a.png", "image/png", 10, [7]⟩] ++ ⟨"bad.txt", "text/plain", 5, []⟩ :: []) 0 [] =
        (.clientError (entryErrorMsg ⟨"bad.txt", "text/plain", 5, []⟩),
          (runValid (fun _ => (1000, "abcd1234")) 0
            [⟨"a.png", "image/png", 10, [7]⟩] []).2) ∧
      (processLoop (fun _ => (1000, "abcd1234"))
          [⟨"a.png", "image/png", 10, [7]⟩] 0 []).2 =
        (runValid (fun _ => (1000, "abcd1234")) 0
          [⟨"a.png", "image/png", 10, [7]⟩] []).2) :=
  ⟨by decide, by decide,
    c3_first_invalid_entry_aborts (fun _ => (1000, "abcd1234"))
      [⟨"a.png", "image/png", 10, [7]⟩] ⟨"bad.txt", "text/plain", 5, []⟩ [] 0 []
      (by decide) (by decide)⟩

-- ===========================================================================
-- Entity routes: shared result type
-- ===========================================================================

/-- HTTP result of an entity handler: `ok` carries the row list produced by
drizzle's `.returning()` (200/201), `badRequest` the handler's own 400,
`notFound` the 404, and `validationError` a rejection by the `zValidator`
middleware (400 with zod issue details, which are not modeled). -/
inductive ApiResult (α : Type) where
  | ok (body : α)
  | badRequest (msg : String)
  | notFound (msg : String)
  | validationError
deriving DecidableEq

-- ===========================================================================
-- src/routes/carouselImages.ts
-- ===========================================================================

/-- One row of the `carousel_images` table: `id` is the identity column and
`index` the `smallserial` position, both store-assigned. -/
structure CarouselRow where
  id : Nat
  filename : String
  row : Nat
  index : Nat
deriving DecidableEq

/-- The `carousel_images` table with its two sequence counters. -/
structure CarouselTable where
  rows : List CarouselRow
  nextId : Nat
  nextIndex : Nat
deriving DecidableEq

/-- `POST /carousel-images`: the referenced file must exist in the blob-store
directory (`fs.access`) before the insert; otherwise 404 and no write. -/
def carouselImagesPost (blobs : List String) (tbl : CarouselTable)
    (filename : String) (row : Nat) : ApiResult (List CarouselRow) × CarouselTable :=
  if blobs.contains filename then
    let nr : CarouselRow := ⟨tbl.nextId, filename, row, tbl.nextIndex⟩
    (.ok [nr], ⟨tbl.rows ++ [nr], tbl.nextId + 1, tbl.nextIndex + 1⟩)
  else
    (.notFound "File not found", tbl)

/-- `PATCH /carousel-images/:id`: empty payload is rejected first; then the
file-existence check runs only when a (truthy) filename is supplied; then
the update, with 404 when `.returning()` comes back empty. -/
def carouselImagesPatch (blobs : List String) (tbl : CarouselTable) (id : Nat)
    (filename? : Option String) (row? : Option Nat) :
    ApiResult (List CarouselRow) × CarouselTable :=
  if filename?.isNone && row?.isNone then
    (.badRequest "At least one field (filename or row) is required", tbl)
  else if (match filename? with
      | some f => f != "" && !(blobs.contains f)
      | none => false) then
    (.notFound "File not found", tbl)
  else
    let upd : CarouselRow → CarouselRow := fun r =>
      if r.id == id then
        { r with filename := filename?.getD r.filename, row := row?.getD r.row }
      else r
    if tbl.rows.any (fun r => r.id == id) then
      let rows' := tbl.rows.map upd
      (.ok (rows'.filter (fun r => r.id == id)), { tbl with rows := rows' })
    else
      (.notFound "Carousel image not found", tbl)

/-- `GET /carousel-images/row/:rowId`: `SELECT ... WHERE row = r ORDER BY
index` — the filtered rows in ascending `index` order. -/
def byRowQuery (rows : List CarouselRow) (r : Nat) : List CarouselRow :=
  List.insertionSort (fun a b => a.index ≤ b.index) (rows.filter (fun x => x.row == r))

-- ===========================================================================
-- src/routes/promotionalOffers.ts
-- ===========================================================================

/-- One row of the `promotional_offers` table (`link` is nullable). -/
structure PromoRow where
  id : Nat
  title : String
  description : String
  images : List String
  link : Option String
deriving DecidableEq

/-- The `promotional_offers` table. -/
structure PromoTable where
  rows : List PromoRow
  nextId : Nat
deriving DecidableEq

/-- Partial payload of `PATCH /promotional-offers/:id`. -/
structure PromoUpdate where
  title : Option String
  description : Option String
  images : Option (List String)
  link : Option String
deriving DecidableEq

/-- `POST /promotional-offers`: every referenced image is checked in request
order; the first missing one aborts with a 404 naming it, before any
insert. -/
def promotionalOffersPost (blobs : List String) (tbl : PromoTable)
    (title description : String) (images : List String) (link : Option String) :
    ApiResult (List PromoRow) × PromoTable :=
  match images.find? (fun f => !(blobs.contains f)) with
  | some f => (.notFound ("File not found: " ++ f), tbl)
  | none =>
    let nr : PromoRow := ⟨tbl.nextId, title, description, images, link⟩
    (.ok [nr], ⟨tbl.rows ++ [nr], tbl.nextId + 1⟩)

/-- `PATCH /promotional-offers/:id`: empty payload rejected first, then the
image-existence loop (only when `images` is supplied), then the update. -/
def promotionalOffersPatch (blobs : List String) (tbl : PromoTable) (id : Nat)
    (u : PromoUpdate) : ApiResult (List PromoRow) × PromoTable :=
  if u.title.isNone && u.description.isNone && u.images.isNone && u.link.isNone then
    (.badRequest "At least one field is required for update", tbl)
  else
    match u.images.bind (fun imgs => imgs.find? (fun f => !(blobs.contains f))) with
    | some f => (.notFound ("File not found: " ++ f), tbl)
    | none =>
      let upd : PromoRow → PromoRow := fun r =>
        if r.id == id then
          { r with
            title := u.title.getD r.title,
            description := u.description.getD r.description,
            images := u.images.getD r.images,
            link := match u.link with | some l => some l | none => r.link }
        else r
      if tbl.rows.any (fun r => r.id == id) then
        let rows' := tbl.rows.map upd
        (.ok (rows'.filter (fun r => r.id == id)), { tbl with rows := rows' })
      else
        (.notFound "Promotional offer not found", tbl)

-- ===========================================================================
-- src/routes/testimonials.ts
-- ===========================================================================

/-- One row of the `testimonials` table. -/
structure TestimonialRow where
  id : Nat
  name : String
  designation : String
  company : String
  image : String
  content : String
deriving DecidableEq

/-- The `testimonials` table. -/
structure TestimonialTable where
  rows : List TestimonialRow
  nextId : Nat
deriving DecidableEq

/-- Partial payload of `PATCH /testimonials/:id`. -/
structure TestimonialUpdate where
  name : Option String
  designation : Option String
  company : Option String
  image : Option String
  content : Option String
deriving DecidableEq

/-- `POST /testimonials`: the handler inserts directly — unlike the other
blob-referencing kinds, it performs no existence check on the `image`
blob reference before writing. -/
def testimonialsPost (tbl : TestimonialTable)
    (name designation company image content : String) :
    ApiResult (List TestimonialRow) × TestimonialTable :=
  let nr : TestimonialRow := ⟨tbl.nextId, name, designation, company, image, content⟩
  (.ok [nr], ⟨tbl.rows ++ [nr], tbl.nextId + 1⟩)

/-- `PATCH /testimonials/:id`: empty payload rejected first (400, before any
store access), then the update with 404 on an unknown id. -/
def testimonialsPatch (tbl : TestimonialTable) (id : Nat) (u : TestimonialUpdate) :
    ApiResult (List TestimonialRow) × TestimonialTable :=
  if u.name.isNone && u.designation.isNone && u.company.isNone &&
      u.image.isNone && u.content.isNone then
    (.badRequest "At least one field is required for update", tbl)
  else
    let upd : TestimonialRow → TestimonialRow := fun r =>
      if r.id == id then
        { r with
          name := u.name.getD r.name,
          designation := u.designation.getD r.designation,
          company := u.company.getD r.company,
          image := u.image.getD r.image,
          content := u.content.getD r.content }
      else r
    if tbl.rows.any (fun r => r.id == id) then
      let rows' := tbl.rows.map upd
      (.ok (rows'.filter (fun r => r.id == id)), { tbl with rows := rows' })
    else
      (.notFound "Testimonial not found", tbl)

-- ===========================================================================
-- Offers routes (second half of src/routes/files.ts source unit)
-- ===========================================================================

/-- One row of the `offers` table; `price` is the `numeric(10,2)` column,
which holds an exact decimal and is modeled as a rational. -/
structure OfferRow where
  id : Nat
  title : String
  description : String
  price : ℚ
deriving DecidableEq

/-- The `offers` table. -/
structure OfferTable where
  rows : List OfferRow
  nextId : Nat
deriving DecidableEq

/-- Partial payload of `PATCH /offers/:id`. -/
structure OfferUpdate where
  title : Option String
  description : Option String
  price : Option ℚ
deriving DecidableEq

/-- `PATCH /offers/:id`: empty payload rejected first (400), then the update,
404 when `.returning()` is empty.  `id` is the number produced by the
`z.coerce.number().min(1)` param schema. -/
def offersPatch (tbl : OfferTable) (id : ℚ) (u : OfferUpdate) :
    ApiResult (List OfferRow) × OfferTable :=
  if u.title.isNone && u.description.isNone && u.price.isNone then
    (.badRequest "At least one field is required for update", tbl)
  else
    let upd : OfferRow → OfferRow := fun r =>
      if decide ((r.id : ℚ) = id) then
        { r with
          title := u.title.getD r.title,
          description := u.description.getD r.description,
          price := u.price.getD r.price }
      else r
    if tbl.rows.any (fun r => decide ((r.id : ℚ) = id)) then
      let rows' := tbl.rows.map upd
      (.ok (rows'.filter (fun r => decide ((r.id : ℚ) = id))), { tbl with rows := rows' })
    else
      (.notFound "Offer not found", tbl)

-- ===========================================================================
-- Route-parameter coercion (zod `z.coerce.number().min(1)`)
-- ===========================================================================

/-- The digit string's numeric value. -/
def digitsToNat (cs : List Char) : Nat :=
  cs.foldl (fun acc c => acc * 10 + (c.toNat - '0'.toNat)) 0

/-- JS `Number(string)` on the plain decimal literals that occur as route
parameters: empty string coerces to `0`, an optional sign followed by
digits with an optional fraction part parses exactly, and anything else is
`NaN` (`none`).  Exponent, hexadecimal, `Infinity` and surrounding
whitespace forms do not occur as ids and are unmodeled; the value of a
decimal literal is represented exactly as a rational (for the short ids at
issue this agrees with the IEEE-754 double JS produces). -/
def parseJsNumber (s : String) : Option ℚ :=
  match s.data with
  | [] => some 0
  | cs =>
    let signAndBody : Int × List Char :=
      match cs with
      | '-' :: t => (-1, t)
      | '+' :: t => (1, t)
      | t => (1, t)
    let sign := signAndBody.1
    let body := signAndBody.2
    let ip := body.takeWhile Char.isDigit
    let rest := body.dropWhile Char.isDigit
    match rest with
    | [] => if ip.isEmpty then none else some (mkRat (sign * digitsToNat ip) 1)
    | '.' :: frac =>
      if frac.all Char.isDigit && !(ip.isEmpty && frac.isEmpty) then
        some (mkRat (sign * (digitsToNat ip * 10 ^ frac.length + digitsToNat frac))
          (10 ^ frac.length))
      else none
    | _ => none

/-- The `z.coerce.number().min(1)` param schema applied to the raw `:id`
segment: coerce with `Number(...)` (`NaN` fails `z.number()`), then require
the value to be at least 1.  No integrality is required. -/
def zCoerceNumberMin1 (s : String) : Option ℚ :=
  match parseJsNumber s with
  | none => none
  | some q => if 1 ≤ q then some q else none

/-- `DELETE /offers/:id` including its param validation: schema rejection
short-circuits (`validationError`); otherwise the delete runs against the
store, 404 when nothing matched. -/
def offersDelete (tbl : OfferTable) (idParam : String) :
    ApiResult (List OfferRow) × OfferTable :=
  match zCoerceNumberMin1 idParam with
  | none => (.validationError, tbl)
  | some q =>
    let deleted := tbl.rows.filter (fun r => decide ((r.id : ℚ) = q))
    match deleted with
    | [] => (.notFound "Offer not found", tbl)
    | _ => (.ok deleted, { tbl with rows := tbl.rows.filter (fun r => !decide ((r.id : ℚ) = q)) })

-- ===========================================================================
-- src/routes/email.ts and src/types.ts EmailSchema
-- ===========================================================================

/-- Character set of the local part of zod's default email pattern
(`[A-Za-z0-9_'+\-\.]`; `Char.ofNat 39` is the apostrophe). -/
def isLocalChar (c : Char) : Bool :=
  c.isAlpha || c.isDigit || c == '_' || c == Char.ofNat 39 || c == '+' ||
    c == '-' || c == '.'

/-- Character set allowed as the last local-part character (`[A-Za-z0-9_+-]`). -/
def isLocalEnd (c : Char) : Bool :=
  c.isAlpha || c.isDigit || c == '_' || c == '+' || c == '-'

/-- One domain label: `[A-Za-z0-9][A-Za-z0-9\-]*`. -/
def labelOk (lb : List Char) : Bool :=
  match lb with
  | [] => false
  | c :: rest =>
    (c.isAlpha || c.isDigit) && rest.all (fun x => x.isAlpha || x.isDigit || x == '-')

/-- Local part of the address: non-empty, not starting with a dot, drawn from
the local character set, ending in a non-dot non-apostrophe character. -/
def localPartOk (cs : List Char) : Bool :=
  match cs with
  | [] => false
  | c :: _ =>
    c != '.' && cs.all isLocalChar &&
      (match cs.getLast? with
       | some e => isLocalEnd e
       | none => false)

/-- Domain part: at least one label followed by an alphabetic TLD of length
at least two. -/
def domainPartOk (cs : List Char) : Bool :=
  let parts := splitOnChar '.' cs
  match parts.getLast? with
  | none => false
  | some tld =>
    decide (2 ≤ parts.length) && decide (2 ≤ tld.length) &&
      tld.all Char.isAlpha && parts.dropLast.all labelOk

/-- zod's `z.email()` default pattern: exactly one `@`, valid local and
domain parts, and no `".."` anywhere. -/
def zodEmailOk (s : String) : Bool :=
  match splitOnChar '@' s.data with
  | [lp, dp] => localPartOk lp && domainPartOk dp && !(listIsInfix ['.', '.'] s.data)
  | _ => false

/-- Body of a `POST /email` request (`EmailSchema` field order). -/
structure EmailInput where
  firstname : String
  lastname : String
  email : String
  message : String
deriving DecidableEq

/-- Modelled from the spec: `src/config/env.ts` (`getEnvConfig` /
`validateEnvVars`) is not under `src/`; per the spec the configuration
carries one statically configured fixed recipient address (`EMAIL_TO`) for
contact-form mail. -/
structure EnvConfig where
  EMAIL_TO : String
deriving DecidableEq

/-- The options object handed to `sendEmail` (nodemailer envelope).  The
source's `from` and `to` fields are named `fromAddr` and `toAddr` here
because `from` and `to` are reserved in Lean; the static `html` template
body carries no claim and is omitted. -/
structure EmailOptions where
  fromAddr : String
  toAddr : String
  subject : String
  text : String
deriving DecidableEq

/-- `EmailSendSchema` (= `EmailSchema`): the four required fields, with
`min(1)` on the names and the message and `z.email()` on the address. -/
def emailSchemaOk (i : EmailInput) : Bool :=
  decide (1 ≤ i.firstname.data.length) && decide (1 ≤ i.lastname.data.length) &&
    zodEmailOk i.email && decide (1 ≤ i.message.data.length)

/-- `POST /email`: after validation, exactly one message is dispatched, with
envelope-from the sender's own address, envelope-to the configured fixed
recipient, and the subject embedding the sender's full name.  The second
component lists the `sendEmail` dispatches the handler performed. -/
def emailPost (cfg : EnvConfig) (input : EmailInput) :
    ApiResult String × List EmailOptions :=
  if emailSchemaOk input then
    (.ok "Email sent successfully",
      [{ fromAddr := input.email, toAddr := cfg.EMAIL_TO,
         subject := "New Contact Form Message from " ++ input.firstname ++ " " ++
           input.lastname,
         text := input.message }])
  else
    (.validationError, [])

-- ===========================================================================
-- C2 — blob-reference existence checks on create
-- ===========================================================================

/-- A list contains any of its suffixes as a contiguous segment. -/
theorem listIsInfix_of_suffix (l t : List Char) : listIsInfix l (t ++ l) = true := by
  induction t with
  | nil =>
    cases l with
    | nil => rfl
    | cons c cs =>
      have hp : (c :: cs).isPrefixOf (c :: cs) = true := by
        rw [ List.isPrefixOf_iff_prefix]
      simp [listIsInfix, hp]
  | cons c t ih =>
    simp [listIsInfix, ih]

/-- A message built by appending the filename mentions that filename. -/
theorem mentions_append (m f : String) : mentions (m ++ f) f = true := by
  unfold mentions
  rw [String.data_append]
  exact listIsInfix_of_suffix f.data m.data

/-- C2 (amended): for carousel-image and promotional-offer Create, a blob
reference naming a file absent from the Blob Store yields a 404 before any
store write, the table being returned unchanged; only the
promotional-offers message names the missing file (`"File not found: " ++ f`
mentions `f`; the carousel message is the bare `"File not found"`).  The
testimonials Create, by contrast, performs no existence check at all: it
inserts its record unconditionally, whatever the blob store holds. -/
theorem c2_missing_blob_rejected (blobs : List String) (ctbl : CarouselTable)
    (fname : String) (row : Nat) (ptbl : PromoTable) (title description : String)
    (images : List String) (link : Option String) (f : String)
    (hc : blobs.contains fname = false)
    (hp : images.find? (fun g => !(blobs.contains g)) = some f) :
    carouselImagesPost blobs ctbl fname row = (.notFound "File not found", ctbl) ∧
    promotionalOffersPost blobs ptbl title description images link =
        (.notFound ("File not found: " ++ f), ptbl) ∧
    mentions ("File not found: " ++ f) f = true ∧
    (∀ (ttbl : TestimonialTable) (name designation company image content : String),
      testimonialsPost ttbl name designation company image content =
        (.ok [⟨ttbl.nextId, name, designation, company, image, content⟩],
          ⟨ttbl.rows ++ [⟨ttbl.nextId, name, designation, company, image, content⟩],
            ttbl.nextId + 1⟩)) := by
  refine ⟨?_, ?_, mentions_append "File not found: " f, ?_⟩
  · have hc' : fname ∉ blobs := by simpa using hc
    simp [carouselImagesPost, hc']
  · unfold promotionalOffersPost
    rw [hp]
  · intro ttbl name designation company image content
    rfl

/-- C2 counterexample: the carousel-images 404 message does not name the
missing file, and a testimonial referencing a blob that exists nowhere is
nevertheless inserted (one record created with an empty blob store). -/
theorem c2_counterexample :
    (carouselImagesPost [] ⟨[], 1, 1⟩ "missing.png" 1).1 =
        ApiResult.notFound "File not found" ∧
    mentions "File not found" "missing.png" = false ∧
    (testimonialsPost ⟨[], 1⟩ "n" "d" "c" "absent.png" "hello").2.rows.length = 1 :=
  ⟨by decide, by decide, by decide⟩

/-- C2 witness: the amended theorem at an empty blob store. -/
theorem c2_missing_blob_rejected_witness :
    ([] : List String).contains "missing.png" = false ∧
    (["y.png"].find? (fun g => !(([] : List String).contains g)) = some "y.png") ∧
    carouselImagesPost [] ⟨[], 1, 1⟩ "missing.png" 1 =
      (.notFound "File not found", ⟨[], 1, 1⟩) ∧
    promotionalOffersPost [] ⟨[], 1⟩ "t" "d" ["y.png"] none =
      (.notFound ("File not found: " ++ "y.png"), ⟨[], 1⟩) :=
  ⟨by decide, by decide,
    (c2_missing_blob_rejected [] ⟨[], 1, 1⟩ "missing.png" 1 ⟨[], 1⟩ "t" "d"
      ["y.png"] none "y.png" (by decide) (by decide)).1,
    (c2_missing_blob_rejected [] ⟨[], 1, 1⟩ "missing.png" 1 ⟨[], 1⟩ "t" "d"
      ["y.png"] none "y.png" (by decide) (by decide)).2.1⟩

-- ===========================================================================
-- C5 — carousel images by row
-- ===========================================================================

/-- C5: `GET /carousel-images/row/:rowId` returns exactly the rows whose
`row` equals the requested value (as a multiset: a permutation of the
filter), sorted ascending by the store-assigned `index`, whatever order
the table holds them in. -/
theorem c5_by_row_filtered_sorted (rows : List CarouselRow) (r : Nat) :
    (∀ x, x ∈ byRowQuery rows r ↔ x ∈ rows ∧ x.row = r) ∧
    List.Sorted (fun a b => a.index ≤ b.index) (byRowQuery rows r) ∧
    (byRowQuery rows r).Perm (rows.filter (fun x => x.row == r)) := by
  have hperm : (byRowQuery rows r).Perm (rows.filter (fun x => x.row == r)) :=
    List.perm_insertionSort _ _
  refine ⟨?_, ?_, hperm⟩
  · intro x
    rw [hperm.mem_iff, List.mem_filter]
    simp
  · haveI h1 : IsTotal CarouselRow (fun a b => a.index ≤ b.index) :=
      ⟨fun a b => Nat.le_total a.index b.index⟩
    haveI h2 : IsTrans CarouselRow (fun a b => a.index ≤ b.index) :=
      ⟨fun _ _ _ hab hbc => Nat.le_trans hab hbc⟩
    exact List.sorted_insertionSort _ _

-- ===========================================================================
-- C7 — contact form dispatch
-- ===========================================================================

/-- C7: every request passing the `EmailSendSchema` validation dispatches
exactly one message, whose envelope-from is the sender's own address, whose
envelope-to is the configured fixed recipient, and whose subject contains
the sender's full name `firstname lastname`. -/
theorem c7_contact_email_dispatch (cfg : EnvConfig) (input : EmailInput)
    (hv : emailSchemaOk input = true) :
    emailPost cfg input =
      (.ok "Email sent successfully",
        [{ fromAddr := input.email, toAddr := cfg.EMAIL_TO,
           subject := "New Contact Form Message from " ++ input.firstname ++ " " ++
             input.lastname,
           text := input.message }]) ∧
    (∃ pre post : String,
      "New Contact Form Message from " ++ input.firstname ++ " " ++ input.lastname =
        pre ++ (input.firstname ++ " " ++ input.lastname) ++ post) := by
  refine ⟨by simp [emailPost, hv], "New Contact Form Message from ", "", ?_⟩
  simp [String.append_assoc]

/-- C7 witness: the spec's own test vector
(`a@b.com`, `A`, `B`, `hi`). -/
theorem c7_contact_email_dispatch_witness :
    emailSchemaOk ⟨"A", "B", "a@b.com", "hi"⟩ = true ∧
    emailPost ⟨"owner@site.com"⟩ ⟨"A", "B", "a@b.com", "hi"⟩ =
      (.ok "Email sent successfully",
        [{ fromAddr := "a@b.com", toAddr := "owner@site.com",
           subject := "New Contact Form Message from " ++ "A" ++ " " ++ "B",
           text := "hi" }]) :=
  ⟨by decide,
    (c7_contact_email_dispatch ⟨"owner@site.com"⟩ ⟨"A", "B", "a@b.com", "hi"⟩
      (by decide)).1⟩

-- ===========================================================================
-- C8 — empty update payloads
-- ===========================================================================

/-- C8: on every modeled entity kind (testimonials, carousel images,
promotional offers, offers), a PATCH whose payload contains no recognized
field is answered with the handler's 400 client error — a `badRequest`,
structurally distinct from the `notFound` used for missing records — and
the table is returned unchanged, for every id, including ids with no
record. -/
theorem c8_empty_update_rejected (ttbl : TestimonialTable) (ctbl : CarouselTable)
    (ptbl : PromoTable) (otbl : OfferTable) (id : Nat) (oid : ℚ)
    (blobs : List String) :
    testimonialsPatch ttbl id ⟨none, none, none, none, none⟩ =
        (.badRequest "At least one field is required for update", ttbl) ∧
    carouselImagesPatch blobs ctbl id none none =
        (.badRequest "At least one field (filename or row) is required", ctbl) ∧
    promotionalOffersPatch blobs ptbl id ⟨none, none, none, none⟩ =
        (.badRequest "At least one field is required for update", ptbl) ∧
    offersPatch otbl oid ⟨none, none, none⟩ =
        (.badRequest "At least one field is required for update", otbl) :=
  ⟨rfl, rfl, rfl, rfl⟩

-- ===========================================================================
-- C9 — id validation by the param schema
-- ===========================================================================

/-- C9 (amended): the `z.coerce.number().min(1)` param schema accepts exactly
the values whose JS-number coercion is at least 1: non-numeric, zero and
negative ids are rejected by validation before any store operation (the
table is untouched), but integrality is not required, so non-integer
values of at least 1 pass validation and reach the store. -/
theorem c9_id_validation (s : String) (tbl : OfferTable) :
    (parseJsNumber s = none → offersDelete tbl s = (.validationError, tbl)) ∧
    (∀ q : ℚ, parseJsNumber s = some q → q < 1 →
      offersDelete tbl s = (.validationError, tbl)) ∧
    (∀ q : ℚ, parseJsNumber s = some q → 1 ≤ q → zCoerceNumberMin1 s = some q) := by
  refine ⟨?_, ?_, ?_⟩
  · intro h
    simp [offersDelete, zCoerceNumberMin1, h]
  · intro q h hlt
    have hn : ¬ (1 ≤ q) := not_le.mpr hlt
    simp [offersDelete, zCoerceNumberMin1, h, hn]
  · intro q h hle
    simp [zCoerceNumberMin1, h, hle]

/-- C9 counterexample: the id `"1.5"` is not a positive integer, yet it
passes schema validation (coercing to the non-integer rational 3/2) and the
delete proceeds to the store, answering 404 rather than a validation
error. -/
theorem c9_counterexample :
    zCoerceNumberMin1 "1.5" = some (mkRat 3 2) ∧
    (mkRat 3 2).den = 2 ∧
    (offersDelete ⟨[⟨1, "t", "d", 5⟩], 2⟩ "1.5").1 =
      ApiResult.notFound "Offer not found" :=
  ⟨by decide, by decide, by decide⟩

/-- C9 witness: the amended theorem applied at the id `"0"`, which coerces
to 0 and is rejected before the store. -/
theorem c9_id_validation_witness :
    parseJsNumber "0" = some 0 ∧ (0 : ℚ) < 1 ∧
    offersDelete ⟨[], 1⟩ "0" = (.validationError, ⟨[], 1⟩) :=
  ⟨by decide, by decide,
    (c9_id_validation "0" ⟨[], 1⟩).2.1 0 (by decide) (by decide)⟩
